import Mathlib

set_option maxHeartbeats 1000000
set_option maxRecDepth 4000

/-
Verification of chrome/browser/ui/webui/about_ui.cc (the "LT Browser" fork of
the Chromium about pages): a shallow embedding of its string helpers, the
region/locale fallback resolver, the three asynchronous document loaders, the
hostname router, and the header/MIME/CORS helpers, together with theorems
about the behaviour of each.

External collaborators (the resource bundle, the statistics provider, the
file system, the component manager, the worker pool) are modelled as explicit
state passed to the embedded functions.  Worker-pool post-and-reply is
sequentialized; each embedded handler returns the list of completion-callback
invocations it performs.
-/

namespace AboutUI

/-- ASCII lowercasing of a string, as base::ToLowerASCII (Char.toLower only
affects the letters A-Z). -/
def toLowerASCII (s : String) : String :=
  String.mk (s.data.map Char.toLower)

/-- ASCII uppercasing of a string, as base::ToUpperASCII. -/
def toUpperASCII (s : String) : String :=
  String.mk (s.data.map Char.toUpper)

/-- Whitespace characters handled by base::TrimWhitespaceASCII. -/
def isAsciiWhitespace (c : Char) : Bool :=
  (c == ' ') || (c == '\t') || (c == '\n') || (c == '\x0b') || (c == '\x0c') || (c == '\r')

/-- Trims ASCII whitespace from both ends of a character list
(base::TRIM_WHITESPACE). -/
def trimWhitespaceASCII (cs : List Char) : List Char :=
  ((cs.dropWhile isAsciiWhitespace).reverse.dropWhile isAsciiWhitespace).reverse

/-- Splits a character list at every occurrence of the separator character. -/
def splitOnChar (sep : Char) : List Char → List (List Char)
  | [] => [[]]
  | c :: rest =>
    match splitOnChar sep rest with
    | [] => if c == sep then [[], []] else [[c]]
    | p :: ps => if c == sep then [] :: p :: ps else (c :: p) :: ps

/-- base::SplitString on a one-character separator with base::TRIM_WHITESPACE
and base::SPLIT_WANT_NONEMPTY: every piece is trimmed and only non-empty
pieces are kept. -/
def splitStringTrimNonempty (s : String) (sep : Char) : List String :=
  ((splitOnChar sep s.data).map (fun p => String.mk (trimWhitespaceASCII p))).filter
    (fun piece => piece != "")

/-- APAC region name (kApac). -/
def kApac : String := "apac"

/-- EMEA region name (kEmea). -/
def kEmea : String := "emea"

/-- EU region name (kEu). -/
def kEu : String := "eu"

/-- List of countries that belong to APAC (kApacCountries). -/
def kApacCountries : List String :=
  ["au", "bd", "cn", "hk", "id", "in", "jp", "kh", "la", "lk", "mm", "mn", "my",
   "nz", "np", "ph", "sg", "th", "tw", "vn"]

/-- List of countries that belong to EMEA (kEmeaCountries); "za" appears twice
in the source array and the duplicate is kept here as well. -/
def kEmeaCountries : List String :=
  ["na", "za", "am", "az", "ch", "eg", "ge", "il", "is", "ke", "kg", "li", "mk",
   "no", "rs", "ru", "tr", "tz", "ua", "ug", "za"]

/-- List of countries that belong to EU (kEuCountries). -/
def kEuCountries : List String :=
  ["at", "be", "bg", "cz", "dk", "es", "fi", "fr", "gb", "gr", "hr", "hu", "ie",
   "it", "lt", "lu", "lv", "nl", "pl", "pt", "ro", "se", "si", "sk"]

/-- One std::map::emplace step: the pair is inserted only when the key is not
already present. -/
def emplace (m : List (String × String)) (k v : String) : List (String × String) :=
  if m.any (fun p => p.1 == k) then m else m ++ [(k, v)]

/-- CreateCountryRegionMap: builds the country-to-region map by emplacing the
APAC countries, then the EMEA countries, then the EU countries. -/
def createCountryRegionMap : List (String × String) :=
  kEuCountries.foldl (fun m c => emplace m c kEu)
    (kEmeaCountries.foldl (fun m c => emplace m c kEmea)
      (kApacCountries.foldl (fun m c => emplace m c kApac) []))

/-- std::map::find on the country-to-region map, returning the mapped region
label when the key is present. -/
def findRegion (m : List (String × String)) (k : String) : Option String :=
  (m.find? (fun p => p.1 == k)).map Prod.snd

/-- ReadDeviceRegionFromVpd: the stored value of the VPD region key is an
Option because the statistics provider is external.  The default "us" is used
when the key is absent; a found value is reduced to the first piece of the
trimmed non-empty dot-split when that split is non-empty; the result is
lowercased. -/
def readDeviceRegionFromVpd (storedRegion : Option String) : String :=
  let region := "us"
  let region :=
    match storedRegion with
    | some value =>
      let pieces := splitStringTrimNonempty value '.'
      match pieces with
      | p :: _ => p
      | [] => value
    | none => region
  toLowerASCII region

/-- Modelled from the spec: language::ExtractBaseLanguage
(components/language/core/common/locale_util.cc, not under src/) — the base
language of a UI locale, i.e. the portion before the first hyphen. -/
def extractBaseLanguage (locale : String) : String :=
  String.mk (locale.data.takeWhile (fun c => c != '-'))

/-- Candidate construction of ChromeOSTermsHandler::CreateArcLocaleLookupArray
from the UI locale and the already-resolved device region: language-region
first, then the broader region label when the device region is a known
country, then "en-us". -/
def createArcLocaleLookupArrayFromRegion (locale deviceRegion : String) : List String :=
  let first := toLowerASCII (extractBaseLanguage locale) ++ "-" ++ deviceRegion
  let localeLookupArray := [first]
  let localeLookupArray :=
    match findRegion createCountryRegionMap deviceRegion with
    | some regionLabel => localeLookupArray ++ [regionLabel]
    | none => localeLookupArray
  localeLookupArray ++ ["en-us"]

/-- CreateArcLocaleLookupArray: resolves the device region from the VPD and
builds the ordered candidate list. -/
def createArcLocaleLookupArray (locale : String) (storedRegion : Option String) :
    List String :=
  createArcLocaleLookupArrayFromRegion locale (readDeviceRegionFromVpd storedRegion)

/-- Known script sub-path kCreditsJsPath. -/
def kCreditsJsPath : String := "credits.js"

/-- Known script sub-path kStatsJsPath. -/
def kStatsJsPath : String := "stats.js"

/-- Known script sub-path kStringsJsPath. -/
def kStringsJsPath : String := "strings.js"

/-- Known script sub-path kKeyboardUtilsPath (Chrome OS build only). -/
def kKeyboardUtilsPath : String := "keyboard_utils.js"

/-- File name of the Termina credits page (kTerminaCreditsPath). -/
def kTerminaCreditsPath : String := "about_os_credits.html"

/-- Modelled from the spec: chrome::kOemEulaURLPath
(chrome/common/url_constants, not under src/). -/
def kOemEulaURLPath : String := "oem"

/-- Modelled from the spec: chrome::kArcTermsURLPath
(chrome/common/url_constants, not under src/). -/
def kArcTermsURLPath : String := "arc/terms"

/-- Modelled from the spec: chrome::kArcPrivacyPolicyURLPath
(chrome/common/url_constants, not under src/). -/
def kArcPrivacyPolicyURLPath : String := "arc/privacy_policy"

/-- Modelled from the spec: chrome::kChromeUIChromeURLsHost
(chrome/common/webui_url_constants, not under src/). -/
def kChromeUIChromeURLsHost : String := "chrome-urls"

/-- Modelled from the spec: chrome::kChromeUICreditsHost (not under src/). -/
def kChromeUICreditsHost : String := "credits"

/-- Modelled from the spec: chrome::kChromeUILinuxProxyConfigHost
(not under src/). -/
def kChromeUILinuxProxyConfigHost : String := "linux-proxy-config"

/-- Modelled from the spec: chrome::kChromeUIOSCreditsHost (not under src/). -/
def kChromeUIOSCreditsHost : String := "os-credits"

/-- Modelled from the spec: chrome::kChromeUICrostiniCreditsHost
(not under src/). -/
def kChromeUICrostiniCreditsHost : String := "crostini-credits"

/-- Modelled from the spec: chrome::kChromeUITermsHost (not under src/). -/
def kChromeUITermsHost : String := "terms"

/-- Modelled from the spec: chrome::kChromeUIOobeURL (not under src/). -/
def kChromeUIOobeURL : String := "chrome://oobe/"

/-- Modelled from the spec: chrome::kChromeOSCreditsPath (chrome_paths, not
under src/) — the on-disk location of the Chrome OS credits page. -/
def kChromeOSCreditsPath : String := "/opt/google/chrome/resources/about_os_credits.html"

/-- External collaborators of the about pages modelled as explicit state: the
resource bundle and localized strings, about_ui::GetCredits, the command-line
url tables, the application locale, the VPD region key, disk reads (as partial
maps from path or locale to contents), the base64 encoder and the Crostini
component manager. -/
structure RouterEnv where
  termsResource : String
  osCreditsResource : String
  keyboardUtilsResource : String
  getCreditsResult : String
  aboutUiCreditsResource : String
  aboutUiCreditsJsResource : String
  crostiniPlaceholderResource : String
  linuxProxyTitle : String
  linuxProxyBody : String
  hostURLs : List String
  internalsPathURLs : List String
  debugURLs : List String
  appLocale : String
  storedRegion : Option String
  oemEulaRead : Option String
  arcTermsRead : String → Option String
  arcPrivacyRead : String → Option String
  base64 : String → String
  componentManagerPresent : Bool
  mountResult : Option String
  readFile : String → Option String

/-- Loop body of ChromeOSTermsHandler::LoadArcTermsFileAsync: the contents of
the first candidate locale whose read succeeds, or empty contents when every
candidate fails. -/
def loadTermsByLocales (readByLocale : String → Option String) :
    List String → String
  | [] => ""
  | locale :: rest =>
    match readByLocale locale with
    | some contents => contents
    | none => loadTermsByLocales readByLocale rest

/-- Loop body of ChromeOSTermsHandler::LoadArcPrivacyPolicyFileAsync: like the
terms read, but the first successful read is base64-encoded. -/
def loadPrivacyByLocales (b64 : String → String)
    (readByLocale : String → Option String) : List String → String
  | [] => ""
  | locale :: rest =>
    match readByLocale locale with
    | some contents => b64 contents
    | none => loadPrivacyByLocales b64 readByLocale rest

/-- ChromeOSTermsHandler::ResponseOnUIThread: the bundled terms resource is
substituted only when both the loaded contents and the path are empty. -/
def termsResponseOnUIThread (path contents termsResource : String) : String :=
  if contents = "" ∧ path = "" then termsResource else contents

/-- ChromeOSTermsHandler: StartOnUIThread dispatch followed by the reply on
the UI thread; the returned list collects every completion-callback
invocation.  The NOTREACHED branch of the source still responds. -/
def chromeOSTermsHandlerStart (env : RouterEnv) (path : String) : List String :=
  if path = kOemEulaURLPath then
    [termsResponseOnUIThread path (env.oemEulaRead.getD "") env.termsResource]
  else if path = kArcTermsURLPath then
    [termsResponseOnUIThread path
      (loadTermsByLocales env.arcTermsRead
        (createArcLocaleLookupArray env.appLocale env.storedRegion))
      env.termsResource]
  else if path = kArcPrivacyPolicyURLPath then
    [termsResponseOnUIThread path
      (loadPrivacyByLocales env.base64 env.arcPrivacyRead
        (createArcLocaleLookupArray env.appLocale env.storedRegion))
      env.termsResource]
  else
    [termsResponseOnUIThread path "" env.termsResource]

/-- ChromeOSCreditsHandler::ResponseOnUIThread: the bundled credits resource
is substituted when the loaded contents are empty and the path is not the
keyboard-utils path. -/
def osCreditsResponseOnUIThread (path contents resource : String) : String :=
  if contents = "" ∧ path ≠ kKeyboardUtilsPath then resource else contents

/-- ChromeOSCreditsHandler: StartOnUIThread plus the single reply. -/
def chromeOSCreditsHandlerStart (env : RouterEnv) (path : String) : List String :=
  if path = kKeyboardUtilsPath then
    [osCreditsResponseOnUIThread path env.keyboardUtilsResource env.osCreditsResource]
  else
    [osCreditsResponseOnUIThread path
      ((env.readFile kChromeOSCreditsPath).getD "") env.osCreditsResource]

/-- CrostiniCreditsHandler::ResponseOnUIThread: the localized placeholder is
substituted when the loaded contents are empty and the path is not the
keyboard-utils path. -/
def crostiniResponseOnUIThread (path contents placeholder : String) : String :=
  if contents = "" ∧ path ≠ kKeyboardUtilsPath then placeholder else contents

/-- CrostiniCreditsHandler: StartOnUIThread, the component-load reply
(OnTerminaLoaded) and the single response; RespondWithPlaceholder clears the
contents before responding. -/
def crostiniCreditsHandlerStart (env : RouterEnv) (path : String) : List String :=
  if path = kKeyboardUtilsPath then
    [crostiniResponseOnUIThread path env.keyboardUtilsResource
      env.crostiniPlaceholderResource]
  else if env.componentManagerPresent = false then
    [crostiniResponseOnUIThread path "" env.crostiniPlaceholderResource]
  else
    match env.mountResult with
    | some mountPath =>
      [crostiniResponseOnUIThread path
        ((env.readFile (mountPath ++ "/" ++ kTerminaCreditsPath)).getD "")
        env.crostiniPlaceholderResource]
    | none => [crostiniResponseOnUIThread path "" env.crostiniPlaceholderResource]

/-- Environment in which every disk read and the component mount fail, the
component manager is absent, and the bundled resources are non-empty marker
strings. -/
def failEnv : RouterEnv where
  termsResource := "TERMS_RESOURCE"
  osCreditsResource := "OS_CREDITS_RESOURCE"
  keyboardUtilsResource := "KEYBOARD_UTILS_JS"
  getCreditsResult := "CREDITS_HTML"
  aboutUiCreditsResource := "CREDITS_HTML_RESOURCE"
  aboutUiCreditsJsResource := "CREDITS_JS"
  crostiniPlaceholderResource := "CROSTINI_PLACEHOLDER"
  linuxProxyTitle := "Linux proxy title"
  linuxProxyBody := "Linux proxy body"
  hostURLs := []
  internalsPathURLs := []
  debugURLs := []
  appLocale := "en"
  storedRegion := some "us"
  oemEulaRead := none
  arcTermsRead := fun _ => none
  arcPrivacyRead := fun _ => none
  base64 := fun s => s
  componentManagerPresent := false
  mountResult := none
  readFile := fun _ => none

/-- Modelled from the spec: net::EscapeForHTML (net/base/escape.cc, not under
src/) — one character of HTML escaping: the five metacharacters become
entities, every other character passes through. -/
def escapeCharForHTML (c : Char) : List Char :=
  if c = '<' then "&lt;".data
  else if c = '>' then "&gt;".data
  else if c = '&' then "&amp;".data
  else if c = '"' then "&quot;".data
  else if c = Char.ofNat 39 then "&#39;".data
  else [c]

/-- Modelled from the spec: net::EscapeForHTML applied to a whole string. -/
def escapeForHTML (s : String) : String :=
  String.mk (s.data.flatMap escapeCharForHTML)

/-- about_ui::AppendHeader: doctype and head opening, the title element (only
for a non-empty title, with the title HTML-escaped), the charset meta tag and
the optional refresh meta tag. -/
def appendHeader (output : String) (refresh : Int) (unescapedTitle : String) :
    String :=
  let output := output ++ "<!DOCTYPE HTML>\n<html>\n<head>\n"
  let output :=
    if unescapedTitle ≠ "" then
      output ++ ("<title>" ++ escapeForHTML unescapedTitle ++ "</title>\n")
    else output
  let output := output ++ "<meta charset=\x27utf-8\x27>\n"
  if refresh > 0 then
    output ++ ("<meta http-equiv=\x27refresh\x27 content=\x27" ++ toString refresh ++ "\x27/>\n")
  else output

/-- about_ui::AppendBody. -/
def appendBody (output : String) : String :=
  output ++ "</head>\n<body>\n"

/-- about_ui::AppendFooter. -/
def appendFooter (output : String) : String :=
  output ++ "</body>\n</html>\n"

/-- Insertion of one string into an ascending list (one step of sorting). -/
def insertSorted (s : String) : List String → List String
  | [] => [s]
  | t :: ts => if s < t then s :: t :: ts else t :: insertSorted s ts

/-- std::sort over a vector of strings, as an insertion sort. -/
def sortStrings (l : List String) : List String :=
  l.foldr insertSorted []

/-- One of the range-for append loops of ChromeURLs: appends one rendered item
per element. -/
def appendVia (render : String → String) (html : String) (l : List String) :
    String :=
  l.foldl (fun h x => h ++ render x) html

/-- ChromeURLs(): the chrome://chrome-urls page — header, the sorted host
list, the sorted internals path list, the debug URL list and the footer. -/
def chromeURLs (env : RouterEnv) : String :=
  let html := appendBody (appendHeader "" 0 "LT browser URLs")
  let html := appendVia
    (fun host => "<li><a href=\x27chrome://" ++ host ++ "/\x27>lt-browser://" ++
      host ++ "</a></li>\n")
    (html ++ "<h2>List of Lt-Browser URLs</h2>\n<ul>\n")
    (sortStrings env.hostURLs)
  let html := appendVia
    (fun path => "<li><a href=\x27chrome://internals/" ++ path ++
      "\x27>lt-browser://internals/" ++ path ++ "</a></li>\n")
    (html ++ "</ul><a id=\x22internals\x22><h2>List of lt-browser://internals pages</h2></a>\n<ul>\n")
    (sortStrings env.internalsPathURLs)
  let html := appendVia (fun u => "<li>" ++ u ++ "</li>\n")
    (html ++ "</ul>\n<h2>For Debug</h2>\n<p>The following pages are for debugging purposes only. Because they crash or hang the renderer, they\x27re not linked directly; you can type them into the address bar if you need them.</p>\n<ul>")
    env.debugURLs
  appendFooter (html ++ "</ul>\n")

/-- AboutLinuxProxyConfig(): header with the localized title, a style block,
the localized body and the footer. -/
def aboutLinuxProxyConfig (env : RouterEnv) : String :=
  let data := appendHeader "" 0 env.linuxProxyTitle
  let data := data ++ "<style>body \x7b max-width: 70ex; padding: 2ex 5ex; \x7d</style>"
  let data := appendBody data
  let data := data ++ env.linuxProxyBody
  appendFooter data

/-- Resource ids consulted by the credits branch of StartDataRequest. -/
inductive CreditsResourceId where
  | aboutUiCreditsHtml
  | aboutUiCreditsJs
  | keyboardUtilsJs
  deriving DecidableEq

/-- ResourceBundle::LoadDataResourceString for the credits resource ids. -/
def loadDataResourceString (env : RouterEnv) : CreditsResourceId → String
  | .aboutUiCreditsHtml => env.aboutUiCreditsResource
  | .aboutUiCreditsJs => env.aboutUiCreditsJsResource
  | .keyboardUtilsJs => env.keyboardUtilsResource

/-- Credits-host branch of StartDataRequest: the resource id is selected from
the sub-path; the credits HTML id renders through about_ui::GetCredits, every
other id loads from the resource bundle. -/
def creditsResponse (env : RouterEnv) (path : String) : String :=
  let idr : CreditsResourceId :=
    if path = kCreditsJsPath then .aboutUiCreditsJs
    else if path = kKeyboardUtilsPath then .keyboardUtilsJs
    else .aboutUiCreditsHtml
  if idr = .aboutUiCreditsHtml then env.getCreditsResult
  else loadDataResourceString env idr

/-- AboutUIHTMLSource::StartDataRequest in the Chrome OS (ash) build: flat
hostname dispatch in source order; the returned list collects every
completion-callback invocation (FinishDataRequest or a handler reply);
unmatched source names fall through to the empty response. -/
def startDataRequest (env : RouterEnv) (sourceName path : String) : List String :=
  if sourceName = kChromeUIChromeURLsHost then [chromeURLs env]
  else if sourceName = kChromeUICreditsHost then [creditsResponse env path]
  else if sourceName = kChromeUILinuxProxyConfigHost then [aboutLinuxProxyConfig env]
  else if sourceName = kChromeUIOSCreditsHost then chromeOSCreditsHandlerStart env path
  else if sourceName = kChromeUICrostiniCreditsHost then crostiniCreditsHandlerStart env path
  else if sourceName = kChromeUITermsHost then
    if path ≠ "" then chromeOSTermsHandlerStart env path
    else [env.termsResource]
  else [""]

/-- AboutUIHTMLSource::GetMimeType; the boolean mirrors the IS_CHROMEOS_ASH
build flag that guards the keyboard-utils comparison. -/
def getMimeType (isChromeOSAsh : Bool) (path : String) : String :=
  if path = kCreditsJsPath ∨ (isChromeOSAsh = true ∧ path = kKeyboardUtilsPath) ∨
      path = kStatsJsPath ∨ path = kStringsJsPath then
    "application/javascript"
  else "text/html"

/-- Helper for base::StartsWith: checks that the first character list is a
prefix of the second. -/
def charListHasPrefix : List Char → List Char → Bool
  | [], _ => true
  | _ :: _, [] => false
  | a :: as, b :: bs => a == b && charListHasPrefix as bs

/-- base::StartsWith(str, searchFor, CompareCase::SENSITIVE). -/
def startsWithB (str searchFor : String) : Bool :=
  charListHasPrefix searchFor.data str.data

/-- AboutUIHTMLSource::GetAccessControlAllowOriginForOrigin; the last argument
models the host framework default for the origin. -/
def getAccessControlAllowOriginForOrigin (sourceName origin frameworkDefault : String) :
    String :=
  if sourceName = kChromeUITermsHost ∧ startsWithB kChromeUIOobeURL origin = true then
    origin
  else frameworkDefault

/-- C2: for every UI locale and device region the fallback candidate list is,
in order, the lowercased base language joined with "-" and the region code,
then the region's country label exactly when the region is a known country,
then "en-us"; in particular region "jp" with locale "ja" yields
["ja-jp", "apac", "en-us"] and unrecognized region "xx" with locale "en"
yields ["en-xx", "en-us"]. -/
theorem arcLocaleLookupArray_order :
    (∀ locale deviceRegion,
      (∀ regionLabel,
        findRegion createCountryRegionMap deviceRegion = some regionLabel →
          createArcLocaleLookupArrayFromRegion locale deviceRegion =
            [toLowerASCII (extractBaseLanguage locale) ++ "-" ++ deviceRegion,
             regionLabel, "en-us"]) ∧
      (findRegion createCountryRegionMap deviceRegion = none →
        createArcLocaleLookupArrayFromRegion locale deviceRegion =
          [toLowerASCII (extractBaseLanguage locale) ++ "-" ++ deviceRegion,
           "en-us"])) ∧
    createArcLocaleLookupArray "ja" (some "jp") = ["ja-jp", "apac", "en-us"] ∧
    createArcLocaleLookupArray "en" (some "xx") = ["en-xx", "en-us"] := by
  refine ⟨fun locale deviceRegion => ⟨?_, ?_⟩, ?_, ?_⟩
  · intro regionLabel h
    simp [createArcLocaleLookupArrayFromRegion, h]
  · intro h
    simp [createArcLocaleLookupArrayFromRegion, h]
  · decide
  · decide

/-- Witness for C2: the known-country and unknown-country branches evaluated
at concrete inputs. -/
theorem arcLocaleLookupArray_order_witness :
    findRegion createCountryRegionMap "jp" = some "apac" ∧
    createArcLocaleLookupArrayFromRegion "ja" "jp" = ["ja-jp", "apac", "en-us"] ∧
    findRegion createCountryRegionMap "xx" = none ∧
    createArcLocaleLookupArrayFromRegion "en" "xx" = ["en-xx", "en-us"] := by
  refine ⟨by decide, ?_, by decide, ?_⟩
  · rw [(arcLocaleLookupArray_order.1 "ja" "jp").1 "apac" (by decide)]
    decide
  · rw [(arcLocaleLookupArray_order.1 "en" "xx").2 (by decide)]
    decide

/-- C3 counterexample: a stored region value of "." (or the empty string) is
present but unsplittable, and is returned as-is instead of the default
"us". -/
theorem readDeviceRegion_malformed_counterexample :
    readDeviceRegionFromVpd (some ".") = "." ∧
    readDeviceRegionFromVpd (some "") = "" ∧
    "." ≠ "us" ∧ ("" : String) ≠ "us" :=
  ⟨by decide, by decide, by decide, by decide⟩

/-- C3 (amended): reading the device region returns the default "us" exactly
when the stored key is absent; when a value is present, its first trimmed
non-empty dot-delimited segment is kept when one exists (so "ca.ansi" yields
"ca"), otherwise the raw value is kept; in every case the result is
lowercased. -/
theorem readDeviceRegion_spec :
    readDeviceRegionFromVpd none = "us" ∧
    (∀ value p ps, splitStringTrimNonempty value '.' = p :: ps →
      readDeviceRegionFromVpd (some value) = toLowerASCII p) ∧
    (∀ value, splitStringTrimNonempty value '.' = [] →
      readDeviceRegionFromVpd (some value) = toLowerASCII value) ∧
    readDeviceRegionFromVpd (some "ca.ansi") = "ca" ∧
    readDeviceRegionFromVpd (some "CA.ansi") = "ca" := by
  refine ⟨by decide, ?_, ?_, by decide, by decide⟩
  · intro value p ps h
    simp [readDeviceRegionFromVpd, h]
  · intro value h
    simp [readDeviceRegionFromVpd, h]

/-- Witness for C3 (amended): both split shapes evaluated at concrete stored
values. -/
theorem readDeviceRegion_spec_witness :
    splitStringTrimNonempty "ca.ansi" '.' = ["ca", "ansi"] ∧
    readDeviceRegionFromVpd (some "ca.ansi") = toLowerASCII "ca" ∧
    splitStringTrimNonempty "." '.' = [] ∧
    readDeviceRegionFromVpd (some ".") = toLowerASCII "." :=
  ⟨by decide, readDeviceRegion_spec.2.1 "ca.ansi" "ca" ["ansi"] (by decide),
   by decide, readDeviceRegion_spec.2.2.1 "." (by decide)⟩

/-- C5: the country-region map maps every listed APAC, EMEA and EU country to
its own list's label; an uppercased stored country code resolves through the
VPD read (which lowercases) to the same code; and a region absent from all
three lists contributes no region fallback candidate to the lookup array. -/
theorem countryRegionMap_total :
    (∀ c ∈ kApacCountries, findRegion createCountryRegionMap c = some kApac) ∧
    (∀ c ∈ kEmeaCountries, findRegion createCountryRegionMap c = some kEmea) ∧
    (∀ c ∈ kEuCountries, findRegion createCountryRegionMap c = some kEu) ∧
    (∀ c ∈ kApacCountries ++ kEmeaCountries ++ kEuCountries,
      readDeviceRegionFromVpd (some (toUpperASCII c)) = c) ∧
    (∀ locale deviceRegion,
      findRegion createCountryRegionMap deviceRegion = none →
        createArcLocaleLookupArrayFromRegion locale deviceRegion =
          [toLowerASCII (extractBaseLanguage locale) ++ "-" ++ deviceRegion,
           "en-us"]) := by
  refine ⟨by decide, by decide, by decide, by decide, ?_⟩
  intro locale deviceRegion h
  simp [createArcLocaleLookupArrayFromRegion, h]

/-- Witness for C5: a listed country, an uppercased listed country, and an
absent region evaluated concretely. -/
theorem countryRegionMap_total_witness :
    findRegion createCountryRegionMap "jp" = some kApac ∧
    readDeviceRegionFromVpd (some (toUpperASCII "ch")) = "ch" ∧
    findRegion createCountryRegionMap "us" = none ∧
    createArcLocaleLookupArrayFromRegion "de" "us" = ["de-us", "en-us"] := by
  refine ⟨countryRegionMap_total.1 "jp" (by decide),
    countryRegionMap_total.2.2.2.1 "ch" (by decide), by decide, ?_⟩
  rw [countryRegionMap_total.2.2.2.2 "de" "us" (by decide)]
  decide

/-- C4: each of the three asynchronous loaders invokes its completion callback
exactly once, on every success and failure branch. -/
theorem loaders_callback_exactly_once (env : RouterEnv) (path : String) :
    (chromeOSTermsHandlerStart env path).length = 1 ∧
    (chromeOSCreditsHandlerStart env path).length = 1 ∧
    (crostiniCreditsHandlerStart env path).length = 1 := by
  refine ⟨?_, ?_, ?_⟩
  · unfold chromeOSTermsHandlerStart
    repeat' split
    all_goals rfl
  · unfold chromeOSCreditsHandlerStart
    repeat' split
    all_goals rfl
  · unfold crostiniCreditsHandlerStart
    repeat' split
    all_goals rfl

/-- C1 counterexample: when every candidate read fails, the terms handler
delivers the empty string for the ARC terms sub-path — not the bundled
placeholder resource. -/
theorem terms_failure_empty_counterexample :
    chromeOSTermsHandlerStart failEnv kArcTermsURLPath = [""] ∧
    failEnv.termsResource = "TERMS_RESOURCE" ∧ ("" : String) ≠ "TERMS_RESOURCE" :=
  ⟨by decide, rfl, by decide⟩

/-- Helper: the terms loop yields empty contents when every candidate read
fails. -/
theorem loadTermsByLocales_all_fail (readByLocale : String → Option String)
    (h : ∀ locale, readByLocale locale = none) :
    ∀ locales, loadTermsByLocales readByLocale locales = "" := by
  intro locales
  induction locales with
  | nil => rfl
  | cons l rest ih => simp [loadTermsByLocales, h l, ih]

/-- Helper: the privacy-policy loop yields empty contents when every candidate
read fails. -/
theorem loadPrivacyByLocales_all_fail (b64 : String → String)
    (readByLocale : String → Option String)
    (h : ∀ locale, readByLocale locale = none) :
    ∀ locales, loadPrivacyByLocales b64 readByLocale locales = "" := by
  intro locales
  induction locales with
  | nil => rfl
  | cons l rest ih => simp [loadPrivacyByLocales, h l, ih]

/-- C1 (amended): when the disk read or the component mount fails, the OS
credits and Crostini credits handlers deliver the bundled default or
placeholder resource; the terms handler substitutes the bundled terms resource
only for an empty sub-path, and delivers the empty string when the read for a
terms sub-path fails. -/
theorem failure_fallback_policy (env : RouterEnv) :
    (∀ path, path ≠ kKeyboardUtilsPath → env.readFile kChromeOSCreditsPath = none →
      chromeOSCreditsHandlerStart env path = [env.osCreditsResource]) ∧
    (∀ path, path ≠ kKeyboardUtilsPath → env.componentManagerPresent = false →
      crostiniCreditsHandlerStart env path = [env.crostiniPlaceholderResource]) ∧
    (∀ path, path ≠ kKeyboardUtilsPath → env.mountResult = none →
      crostiniCreditsHandlerStart env path = [env.crostiniPlaceholderResource]) ∧
    (∀ mountPath, env.componentManagerPresent = true →
      env.mountResult = some mountPath →
      env.readFile (mountPath ++ "/" ++ kTerminaCreditsPath) = none →
      ∀ path, path ≠ kKeyboardUtilsPath →
        crostiniCreditsHandlerStart env path = [env.crostiniPlaceholderResource]) ∧
    (env.oemEulaRead = none →
      chromeOSTermsHandlerStart env kOemEulaURLPath = [""]) ∧
    ((∀ locale, env.arcTermsRead locale = none) →
      chromeOSTermsHandlerStart env kArcTermsURLPath = [""]) ∧
    ((∀ locale, env.arcPrivacyRead locale = none) →
      chromeOSTermsHandlerStart env kArcPrivacyPolicyURLPath = [""]) := by
  refine ⟨?_, ?_, ?_, ?_, ?_, ?_, ?_⟩
  · intro path hk hr
    simp [chromeOSCreditsHandlerStart, hk, hr, osCreditsResponseOnUIThread]
  · intro path hk hm
    simp [crostiniCreditsHandlerStart, hk, hm, crostiniResponseOnUIThread]
  · intro path hk hm
    by_cases hc : env.componentManagerPresent = false
    · simp [crostiniCreditsHandlerStart, hk, hc, crostiniResponseOnUIThread]
    · simp [crostiniCreditsHandlerStart, hk, hc, hm, crostiniResponseOnUIThread]
  · intro mountPath hc hm hr path hk
    simp [crostiniCreditsHandlerStart, hk, hc, hm, hr, crostiniResponseOnUIThread]
  · intro hr
    simp [chromeOSTermsHandlerStart, hr, termsResponseOnUIThread, kOemEulaURLPath]
  · intro hr
    simp [chromeOSTermsHandlerStart, kArcTermsURLPath, kOemEulaURLPath,
      loadTermsByLocales_all_fail env.arcTermsRead hr, termsResponseOnUIThread]
  · intro hr
    simp [chromeOSTermsHandlerStart, kArcPrivacyPolicyURLPath, kOemEulaURLPath,
      kArcTermsURLPath,
      loadPrivacyByLocales_all_fail env.base64 env.arcPrivacyRead hr,
      termsResponseOnUIThread]

/-- Witness for C1 (amended): the fallback branches evaluated in the failing
environment. -/
theorem failure_fallback_policy_witness :
    chromeOSCreditsHandlerStart failEnv "x" = [failEnv.osCreditsResource] ∧
    crostiniCreditsHandlerStart failEnv "x" = [failEnv.crostiniPlaceholderResource] ∧
    chromeOSTermsHandlerStart failEnv kOemEulaURLPath = [""] :=
  ⟨(failure_fallback_policy failEnv).1 "x" (by decide) rfl,
   (failure_fallback_policy failEnv).2.1 "x" (by decide) rfl,
   (failure_fallback_policy failEnv).2.2.2.2.1 rfl⟩

/-- Helper: appending on the right preserves length positivity. -/
theorem lt_length_append_left (s t : String) (h : 0 < s.length) :
    0 < (s ++ t).length := by
  rw [String.length_append]
  omega

/-- Helper: an append loop never shrinks the accumulated page. -/
theorem appendVia_length_le (render : String → String) (l : List String) :
    ∀ html : String, html.length ≤ (appendVia render html l).length := by
  induction l with
  | nil => intro html; exact Nat.le_refl _
  | cons x xs ih =>
    intro html
    calc html.length ≤ (html ++ render x).length := by
          rw [String.length_append]; omega
      _ ≤ _ := ih (html ++ render x)

/-- Helper: an append loop preserves length positivity. -/
theorem lt_length_appendVia (render : String → String) (html : String)
    (l : List String) (h : 0 < html.length) :
    0 < (appendVia render html l).length :=
  Nat.lt_of_lt_of_le h (appendVia_length_le render l html)

/-- Helper: the page header is never empty. -/
theorem appendHeader_length_pos (output : String) (refresh : Int) (title : String) :
    0 < (appendHeader output refresh title).length := by
  have hd : 0 < (output ++ "<!DOCTYPE HTML>\n<html>\n<head>\n").length := by
    rw [String.length_append]
    have hlit : 0 < ("<!DOCTYPE HTML>\n<html>\n<head>\n" : String).length := by decide
    omega
  simp only [appendHeader]
  split
  · apply lt_length_append_left
    apply lt_length_append_left
    split
    · exact lt_length_append_left _ _ hd
    · exact hd
  · apply lt_length_append_left
    split
    · exact lt_length_append_left _ _ hd
    · exact hd

/-- Helper: a positive-length string is not the empty string. -/
theorem ne_empty_of_length_pos (s : String) (h : 0 < s.length) : s ≠ "" := by
  intro he
  subst he
  exact absurd h (by decide)

/-- Helper: the chrome-urls page is never empty. -/
theorem chromeURLs_ne_empty (env : RouterEnv) : chromeURLs env ≠ "" := by
  apply ne_empty_of_length_pos
  simp only [chromeURLs, appendFooter, appendBody]
  apply lt_length_append_left
  apply lt_length_append_left
  apply lt_length_appendVia
  apply lt_length_append_left
  apply lt_length_appendVia
  apply lt_length_append_left
  apply lt_length_appendVia
  apply lt_length_append_left
  apply lt_length_append_left
  exact appendHeader_length_pos "" 0 "LT browser URLs"

/-- Helper: the Linux proxy-config page is never empty. -/
theorem aboutLinuxProxyConfig_ne_empty (env : RouterEnv) :
    aboutLinuxProxyConfig env ≠ "" := by
  apply ne_empty_of_length_pos
  simp only [aboutLinuxProxyConfig, appendFooter, appendBody]
  apply lt_length_append_left
  apply lt_length_append_left
  apply lt_length_append_left
  apply lt_length_append_left
  exact appendHeader_length_pos "" 0 env.linuxProxyTitle

/-- Helper: StartDataRequest reduced at the chrome-urls host. -/
theorem startDataRequest_chromeURLs (env : RouterEnv) (path : String) :
    startDataRequest env kChromeUIChromeURLsHost path = [chromeURLs env] := by
  unfold startDataRequest
  rw [if_pos rfl]

/-- Helper: StartDataRequest reduced at the credits host. -/
theorem startDataRequest_credits (env : RouterEnv) (path : String) :
    startDataRequest env kChromeUICreditsHost path = [creditsResponse env path] := by
  unfold startDataRequest
  rw [if_neg (by decide), if_pos rfl]

/-- Helper: StartDataRequest reduced at the Linux proxy-config host. -/
theorem startDataRequest_linuxProxy (env : RouterEnv) (path : String) :
    startDataRequest env kChromeUILinuxProxyConfigHost path =
      [aboutLinuxProxyConfig env] := by
  unfold startDataRequest
  rw [if_neg (by decide), if_neg (by decide), if_pos rfl]

/-- Helper: StartDataRequest reduced at the OS credits host. -/
theorem startDataRequest_osCredits (env : RouterEnv) (path : String) :
    startDataRequest env kChromeUIOSCreditsHost path =
      chromeOSCreditsHandlerStart env path := by
  unfold startDataRequest
  rw [if_neg (by decide), if_neg (by decide), if_neg (by decide), if_pos rfl]

/-- Helper: StartDataRequest reduced at the Crostini credits host. -/
theorem startDataRequest_crostiniCredits (env : RouterEnv) (path : String) :
    startDataRequest env kChromeUICrostiniCreditsHost path =
      crostiniCreditsHandlerStart env path := by
  unfold startDataRequest
  rw [if_neg (by decide), if_neg (by decide), if_neg (by decide),
    if_neg (by decide), if_pos rfl]

/-- Helper: StartDataRequest reduced at the terms host. -/
theorem startDataRequest_terms (env : RouterEnv) (path : String) :
    startDataRequest env kChromeUITermsHost path =
      if path ≠ "" then chromeOSTermsHandlerStart env path
      else [env.termsResource] := by
  unfold startDataRequest
  rw [if_neg (by decide), if_neg (by decide), if_neg (by decide),
    if_neg (by decide), if_neg (by decide), if_pos rfl]

/-- Helper: the OS credits response is never empty when the bundled resources
needed by its branch are non-empty. -/
theorem osCreditsResponse_ne_empty (path contents resource : String)
    (hres : resource ≠ "") (hkbd : path = kKeyboardUtilsPath → contents ≠ "") :
    osCreditsResponseOnUIThread path contents resource ≠ "" := by
  unfold osCreditsResponseOnUIThread
  split
  · exact hres
  · next h =>
    by_cases hc : contents = ""
    · by_cases hq : path = kKeyboardUtilsPath
      · exact absurd hc (hkbd hq)
      · exact absurd ⟨hc, hq⟩ h
    · exact hc

/-- Helper: the Crostini credits response is never empty when the bundled
resources needed by its branch are non-empty. -/
theorem crostiniResponse_ne_empty (path contents placeholder : String)
    (hres : placeholder ≠ "") (hkbd : path = kKeyboardUtilsPath → contents ≠ "") :
    crostiniResponseOnUIThread path contents placeholder ≠ "" := by
  unfold crostiniResponseOnUIThread
  split
  · exact hres
  · next h =>
    by_cases hc : contents = ""
    · by_cases hq : path = kKeyboardUtilsPath
      · exact absurd hc (hkbd hq)
      · exact absurd ⟨hc, hq⟩ h
    · exact hc

/-- C7 counterexample: a supported hostname (the terms host, with the ARC
terms sub-path) delivers an empty body when every candidate read fails. -/
theorem router_terms_empty_counterexample :
    startDataRequest failEnv kChromeUITermsHost kArcTermsURLPath = [""] := by
  decide

/-- C7 (amended): with non-empty bundled resources, the chrome-urls, credits,
Linux proxy-config, OS credits and Crostini credits hosts always deliver a
non-empty body, and the terms host delivers the bundled terms resource for an
empty sub-path; for a non-empty terms sub-path the body can be empty when the
requested document fails to load. -/
theorem router_nonempty_responses (env : RouterEnv)
    (hTerms : env.termsResource ≠ "")
    (hOs : env.osCreditsResource ≠ "")
    (hKbd : env.keyboardUtilsResource ≠ "")
    (hCredits : env.getCreditsResult ≠ "")
    (hCreditsJs : env.aboutUiCreditsJsResource ≠ "")
    (hPlaceholder : env.crostiniPlaceholderResource ≠ "") :
    (∀ path r, r ∈ startDataRequest env kChromeUIChromeURLsHost path → r ≠ "") ∧
    (∀ path r, r ∈ startDataRequest env kChromeUICreditsHost path → r ≠ "") ∧
    (∀ path r, r ∈ startDataRequest env kChromeUILinuxProxyConfigHost path → r ≠ "") ∧
    (∀ path r, r ∈ startDataRequest env kChromeUIOSCreditsHost path → r ≠ "") ∧
    (∀ path r, r ∈ startDataRequest env kChromeUICrostiniCreditsHost path → r ≠ "") ∧
    (startDataRequest env kChromeUITermsHost "" = [env.termsResource] ∧
      ∀ r, r ∈ startDataRequest env kChromeUITermsHost "" → r ≠ "") := by
  refine ⟨?_, ?_, ?_, ?_, ?_, ?_, ?_⟩
  · intro path r hr
    rw [startDataRequest_chromeURLs] at hr
    simp only [List.mem_singleton] at hr
    subst hr
    exact chromeURLs_ne_empty env
  · intro path r hr
    rw [startDataRequest_credits] at hr
    simp only [List.mem_singleton] at hr
    subst hr
    by_cases h1 : path = kCreditsJsPath
    · simpa [creditsResponse, h1, loadDataResourceString] using hCreditsJs
    · by_cases h2 : path = kKeyboardUtilsPath
      · simpa [creditsResponse, h1, h2, loadDataResourceString] using hKbd
      · simpa [creditsResponse, h1, h2] using hCredits
  · intro path r hr
    rw [startDataRequest_linuxProxy] at hr
    simp only [List.mem_singleton] at hr
    subst hr
    exact aboutLinuxProxyConfig_ne_empty env
  · intro path r hr
    rw [startDataRequest_osCredits] at hr
    by_cases hk : path = kKeyboardUtilsPath
    · simp only [chromeOSCreditsHandlerStart, if_pos hk, List.mem_singleton] at hr
      subst hr
      exact osCreditsResponse_ne_empty _ _ _ hOs (fun _ => hKbd)
    · simp only [chromeOSCreditsHandlerStart, if_neg hk, List.mem_singleton] at hr
      subst hr
      exact osCreditsResponse_ne_empty _ _ _ hOs (fun hq => absurd hq hk)
  · intro path r hr
    rw [startDataRequest_crostiniCredits] at hr
    by_cases hk : path = kKeyboardUtilsPath
    · simp only [crostiniCreditsHandlerStart, if_pos hk, List.mem_singleton] at hr
      subst hr
      exact crostiniResponse_ne_empty _ _ _ hPlaceholder (fun _ => hKbd)
    · by_cases hc : env.componentManagerPresent = false
      · simp only [crostiniCreditsHandlerStart, if_neg hk, if_pos hc,
          List.mem_singleton] at hr
        subst hr
        exact crostiniResponse_ne_empty _ _ _ hPlaceholder (fun hq => absurd hq hk)
      · cases hm : env.mountResult with
        | some mountPath =>
          simp only [crostiniCreditsHandlerStart, if_neg hk, if_neg hc, hm,
            List.mem_singleton] at hr
          subst hr
          exact crostiniResponse_ne_empty _ _ _ hPlaceholder (fun hq => absurd hq hk)
        | none =>
          simp only [crostiniCreditsHandlerStart, if_neg hk, if_neg hc, hm,
            List.mem_singleton] at hr
          subst hr
          exact crostiniResponse_ne_empty _ _ _ hPlaceholder (fun hq => absurd hq hk)
  · rw [startDataRequest_terms]
    simp
  · intro r hr
    rw [startDataRequest_terms] at hr
    simp only [ne_eq, not_true_eq_false, if_false, List.mem_singleton] at hr
    subst hr
    exact hTerms

/-- Witness for C7 (amended): the terms host with an empty sub-path in the
failing environment. -/
theorem router_nonempty_responses_witness :
    startDataRequest failEnv kChromeUITermsHost "" = ["TERMS_RESOURCE"] :=
  (router_nonempty_responses failEnv (by decide) (by decide) (by decide)
    (by decide) (by decide) (by decide)).2.2.2.2.2.1

/-- C8: a source name matching none of the known hostnames falls through and
the router delivers the empty response body. -/
theorem router_unknown_host_empty (env : RouterEnv) (sourceName path : String)
    (h1 : sourceName ≠ kChromeUIChromeURLsHost)
    (h2 : sourceName ≠ kChromeUICreditsHost)
    (h3 : sourceName ≠ kChromeUILinuxProxyConfigHost)
    (h4 : sourceName ≠ kChromeUIOSCreditsHost)
    (h5 : sourceName ≠ kChromeUICrostiniCreditsHost)
    (h6 : sourceName ≠ kChromeUITermsHost) :
    startDataRequest env sourceName path = [""] := by
  unfold startDataRequest
  rw [if_neg h1, if_neg h2, if_neg h3, if_neg h4, if_neg h5, if_neg h6]

/-- Witness for C8: the unmatched source name "version" in the failing
environment. -/
theorem router_unknown_host_empty_witness :
    startDataRequest failEnv "version" "credits.js" = [""] :=
  router_unknown_host_empty failEnv "version" "credits.js" (by decide) (by decide)
    (by decide) (by decide) (by decide) (by decide)

/-- C6: GetMimeType returns "application/javascript" exactly for the known
script paths — credits.js, stats.js, strings.js, and keyboard_utils.js only in
the Chrome OS build — and "text/html" for every other path. -/
theorem getMimeType_spec (isChromeOSAsh : Bool) (path : String) :
    getMimeType isChromeOSAsh path =
      if path = "credits.js" ∨ path = "stats.js" ∨ path = "strings.js" ∨
          (isChromeOSAsh = true ∧ path = "keyboard_utils.js") then
        "application/javascript"
      else "text/html" := by
  simp only [getMimeType, kCreditsJsPath, kKeyboardUtilsPath, kStatsJsPath,
    kStringsJsPath]
  split <;> split <;> first | rfl | (exfalso; tauto)

/-- C9: the requesting origin is echoed back exactly when the source is the
terms host and the chrome://oobe URL string starts with that origin, so every
string prefix of the oobe URL — not only the exact oobe origin — is granted;
all other inputs get the framework default. -/
theorem accessControlAllowOrigin_spec (origin frameworkDefault : String) :
    (startsWithB kChromeUIOobeURL origin = true →
      getAccessControlAllowOriginForOrigin kChromeUITermsHost origin
        frameworkDefault = origin) ∧
    (startsWithB kChromeUIOobeURL origin = false →
      getAccessControlAllowOriginForOrigin kChromeUITermsHost origin
        frameworkDefault = frameworkDefault) ∧
    (∀ sourceName, sourceName ≠ kChromeUITermsHost →
      getAccessControlAllowOriginForOrigin sourceName origin frameworkDefault =
        frameworkDefault) ∧
    getAccessControlAllowOriginForOrigin kChromeUITermsHost "chrome://oo"
      frameworkDefault = "chrome://oo" := by
  refine ⟨?_, ?_, ?_, ?_⟩
  · intro h
    simp [getAccessControlAllowOriginForOrigin, h]
  · intro h
    simp [getAccessControlAllowOriginForOrigin, h]
  · intro sourceName hs
    simp [getAccessControlAllowOriginForOrigin, hs]
  · unfold getAccessControlAllowOriginForOrigin
    rw [if_pos ⟨rfl, by decide⟩]

/-- Witness for C9: a proper string prefix of the oobe URL is granted at the
terms host and refused elsewhere. -/
theorem accessControlAllowOrigin_spec_witness :
    getAccessControlAllowOriginForOrigin kChromeUITermsHost "chrome://oobe"
      "FRAMEWORK_DEFAULT" = "chrome://oobe" ∧
    getAccessControlAllowOriginForOrigin kChromeUICreditsHost "chrome://oobe"
      "FRAMEWORK_DEFAULT" = "FRAMEWORK_DEFAULT" :=
  ⟨(accessControlAllowOrigin_spec "chrome://oobe" "FRAMEWORK_DEFAULT").1 (by decide),
   (accessControlAllowOrigin_spec "chrome://oobe" "FRAMEWORK_DEFAULT").2.2.1
     kChromeUICreditsHost (by decide)⟩

/-- Helper: one escaped character never contains a raw HTML metacharacter. -/
theorem escapeCharForHTML_clean (c : Char) :
    ∀ c' ∈ escapeCharForHTML c,
      c' ≠ '<' ∧ c' ≠ '>' ∧ c' ≠ '"' ∧ c' ≠ Char.ofNat 39 := by
  intro c' hc'
  unfold escapeCharForHTML at hc'
  by_cases h1 : c = '<'
  · rw [if_pos h1] at hc'
    fin_cases hc' <;> decide
  · rw [if_neg h1] at hc'
    by_cases h2 : c = '>'
    · rw [if_pos h2] at hc'
      fin_cases hc' <;> decide
    · rw [if_neg h2] at hc'
      by_cases h3 : c = '&'
      · rw [if_pos h3] at hc'
        fin_cases hc' <;> decide
      · rw [if_neg h3] at hc'
        by_cases h4 : c = '"'
        · rw [if_pos h4] at hc'
          fin_cases hc' <;> decide
        · rw [if_neg h4] at hc'
          by_cases h5 : c = Char.ofNat 39
          · rw [if_pos h5] at hc'
            fin_cases hc' <;> decide
          · rw [if_neg h5] at hc'
            simp only [List.mem_singleton] at hc'
            subst hc'
            exact ⟨h1, h2, h4, h5⟩

/-- C10: AppendHeader inserts the HTML-escaped title inside a title element
when the title is non-empty, emits no title element for an empty title, and
the escaped text never contains a raw markup character. -/
theorem appendHeader_escapes_title (output : String) (refresh : Int)
    (unescapedTitle : String) :
    (unescapedTitle ≠ "" →
      appendHeader output refresh unescapedTitle =
        output ++ "<!DOCTYPE HTML>\n<html>\n<head>\n" ++
          ("<title>" ++ escapeForHTML unescapedTitle ++ "</title>\n") ++
          "<meta charset=\x27utf-8\x27>\n" ++
          (if refresh > 0 then
            "<meta http-equiv=\x27refresh\x27 content=\x27" ++ toString refresh ++ "\x27/>\n"
           else "")) ∧
    (unescapedTitle = "" →
      appendHeader output refresh unescapedTitle =
        output ++ "<!DOCTYPE HTML>\n<html>\n<head>\n" ++ "<meta charset=\x27utf-8\x27>\n" ++
          (if refresh > 0 then
            "<meta http-equiv=\x27refresh\x27 content=\x27" ++ toString refresh ++ "\x27/>\n"
           else "")) ∧
    (∀ c ∈ (escapeForHTML unescapedTitle).data,
      c ≠ '<' ∧ c ≠ '>' ∧ c ≠ '"' ∧ c ≠ Char.ofNat 39) := by
  refine ⟨?_, ?_, ?_⟩
  · intro ht
    simp only [appendHeader, if_pos ht]
    split
    · rfl
    · rw [String.append_empty]
  · intro ht
    simp only [appendHeader, ht]
    simp only [ne_eq, not_true_eq_false, if_false]
    split
    · rfl
    · rw [String.append_empty]
  · intro c hc
    simp only [escapeForHTML] at hc
    rw [List.mem_flatMap] at hc
    obtain ⟨a, _, ha⟩ := hc
    exact escapeCharForHTML_clean a c ha

/-- Witness for C10: a title containing a markup character, and the empty
title, evaluated concretely. -/
theorem appendHeader_escapes_title_witness :
    appendHeader "" 7 "a<b" =
      "" ++ "<!DOCTYPE HTML>\n<html>\n<head>\n" ++
        ("<title>" ++ escapeForHTML "a<b" ++ "</title>\n") ++
        "<meta charset=\x27utf-8\x27>\n" ++
        "<meta http-equiv=\x27refresh\x27 content=\x277\x27/>\n" ∧
    escapeForHTML "a<b" = "a&lt;b" ∧
    appendHeader "" 0 "" =
      "" ++ "<!DOCTYPE HTML>\n<html>\n<head>\n" ++ "<meta charset=\x27utf-8\x27>\n" := by
  refine ⟨?_, by decide, ?_⟩
  · have h := (appendHeader_escapes_title "" 7 "a<b").1 (by decide)
    rw [h]
    decide
  · have h := (appendHeader_escapes_title "" 0 "").2.1 rfl
    rw [h]
    decide

end AboutUI
